import Mathlib

/-!
# Verification of the Chimera generation actor

Shallow embedding of `src/actors/generation_actor.py` (class `GenerationActor`)
together with the message-type table of `src/actors/messages.py`.
Python values parsed from JSON are modelled by the inductive `Json`;
Python exceptions are modelled by `Except PyErr`; the mutable actor fields
(`_generation_count`, `_total_cache_hits`, `_json_failures`,
`_mode_success_counts`, `_mode_failure_counts`) together with the
observable effects (appended events, issued API calls) form `GenState`,
threaded explicitly.  State mutated before an exception is raised stays
mutated, as in Python.  Externally configured data (`config/prompts.py`,
`config/settings.py`) and external collaborators (`json.loads`, the
Pydantic `parse_response`, the streaming provider, the event sink) are
parameters of the embedding (`Config`, `Env`).
-/

namespace Chimera

/-- A parsed JSON value (the result of Python's `json.loads`).  Numbers are
modelled as integers; no claim inspects numeric values beyond structure. -/
inductive Json where
  | null : Json
  | bool : Bool → Json
  | num : Int → Json
  | str : String → Json
  | arr : List Json → Json
  | obj : List (String × Json) → Json

/-- Python exceptions that the embedded code can raise. -/
inductive PyErr where
  | jsonDecodeError : String → PyErr
  | valueError : String → PyErr
  | keyError : String → PyErr
  | typeError : String → PyErr
  | appendError : String → PyErr
  | providerError : String → PyErr
deriving Repr, DecidableEq

/-- First-match lookup in a string-keyed association list (Python `d[k]` /
`k in d`; dicts produced by `json.loads` have unique keys). -/
def pyGet {α : Type} (d : List (String × α)) (k : String) : Option α :=
  match d with
  | [] => none
  | (k', v) :: rest => if k' = k then some v else pyGet rest k

/-- Update the value at a key (Python `d[k] = v` on a present key). -/
def pySet {α : Type} (d : List (String × α)) (k : String) (v : α) :
    List (String × α) :=
  match d with
  | [] => []
  | (k', v') :: rest =>
    if k' = k then (k', v) :: rest else (k', v') :: pySet rest k v

/-- Python `d[k] += 1` on an int-valued dict: raises `KeyError` when the key
is absent. -/
def pyIncr (d : List (String × Nat)) (k : String) :
    Except PyErr (List (String × Nat)) :=
  match pyGet d k with
  | none => .error (.keyError k)
  | some v => .ok (pySet d k (v + 1))

/-- Occurrence test on character lists: some suffix of the haystack
starts with the pattern. -/
def charsHaveSub (hay pat : List Char) : Bool :=
  match hay with
  | [] => pat.isPrefixOf ([] : List Char)
  | _ :: rest => pat.isPrefixOf hay || charsHaveSub rest pat

/-- Python `"pat" in s` substring test. -/
def containsSub (s pat : String) : Bool :=
  charsHaveSub s.data pat.data

/-- Python `str()` of a parsed-JSON value.  Reached only on the non-dict
branch of `_generate_response`'s `response_text` assignment, which
`_extract_from_json` with `return_full_dict=True` makes unreachable. -/
def pyStrOfJson : Json → String
  | .null => "None"
  | .bool true => "True"
  | .bool false => "False"
  | .num n => toString n
  | .str s => s
  | .arr _ => "[...]"
  | .obj _ => "\x7b...\x7d"

/-- Python `len()` on a value of JSON shape: defined for strings, lists and
dicts, `TypeError` otherwise. -/
def pyLen : Json → Except PyErr Nat
  | .str s => .ok s.length
  | .arr xs => .ok xs.length
  | .obj fs => .ok fs.length
  | _ => .error (.typeError "object has no len")

/-! ## Message types (`src/actors/messages.py`)

Only the entries the generation actor uses; each `MessageType` member is a
`str` enum whose value is the lowercase name. -/

def MESSAGE_TYPE_GENERATE_RESPONSE : String := "generate_response"
def MESSAGE_TYPE_BOT_RESPONSE : String := "bot_response"
def MESSAGE_TYPE_ERROR : String := "error"

/-! ## Configuration and external environment

`Config` gathers the externally owned flags read by the actor
(`PROMPT_CONFIG`, `GENERATION_PARAMS_LOG_CONFIG`, `JSON_VALIDATION_*`,
`JSON_VALIDATION_CONFIG`).  `Env` gathers the external collaborators and
configured tables. -/

structure Config where
  /-- `PROMPT_CONFIG["use_json_mode"]` -/
  use_json_mode : Bool
  /-- `PROMPT_CONFIG["json_fallback_enabled"]` -/
  json_fallback_enabled : Bool
  /-- `JSON_VALIDATION_LOG_FAILURES` -/
  json_validation_log_failures : Bool
  /-- `JSON_VALIDATION_ENABLED` -/
  json_validation_enabled : Bool
  /-- `GENERATION_PARAMS_LOG_CONFIG.get("log_parameters_usage", True)` -/
  log_parameters_usage : Bool
  /-- `GENERATION_PARAMS_LOG_CONFIG.get("log_response_length", True)` -/
  log_response_length : Bool
  /-- `JSON_VALIDATION_CONFIG.get('max_validation_errors', 5)` -/
  max_validation_errors : Nat
deriving Repr, DecidableEq

/-- Generation parameters configured per mode (`MODE_GENERATION_PARAMS`
entries); values are external configuration, carried opaquely. -/
structure ModeParams where
  temperature : ℚ
  top_p : ℚ
  max_tokens : Nat
  frequency_penalty : ℚ
  presence_penalty : ℚ
deriving Repr, DecidableEq

/-- Outcome of the external Pydantic `parse_response(response_dict, mode)`
call (`models/structured_responses.py`, outside the embedded sources).
Validation errors carry `(loc, msg)` pairs as produced by
`ValidationError.errors()`. -/
inductive PydanticOutcome where
  | ok : PydanticOutcome
  | validationError : List (List String × String) → PydanticOutcome
  | valueErrorCaused : List (List String × String) → PydanticOutcome
  | valueErrorPlain : String → PydanticOutcome
deriving Repr, DecidableEq

/-- Result of one drained streaming provider call: aggregated text plus the
final cumulative cache telemetry, or a provider-side failure. -/
inductive ProviderResult where
  | ok : String → Nat → Nat → ProviderResult
  | err : String → ProviderResult
deriving Repr, DecidableEq

/-- External collaborators and configured tables, fixed for a run. -/
structure Env where
  /-- `json.loads`: `none` models `json.JSONDecodeError`. -/
  loads : String → Option Json
  /-- Pydantic `parse_response(response_dict, mode)`. -/
  pydantic : Json → String → PydanticOutcome
  /-- Result of the n-th provider call issued in the run (0-based). -/
  provider : Nat → ProviderResult
  /-- Whether the event sink's `append` succeeds (`false`: it raises). -/
  sink_ok : Bool
  /-- `PROMPTS[mode]` for non-base modes: mode ↦ (key ↦ prompt text). -/
  prompts_table : List (String × List (String × String))
  /-- `PROMPTS["base"]["json"]` (guaranteed present by configuration). -/
  base_json_prompt : String
  /-- `PROMPTS["base"]["normal"]` (guaranteed present by configuration). -/
  base_normal_prompt : String
  /-- `JSON_SCHEMA_INSTRUCTIONS`. -/
  json_schema_instructions : List (String × String)
  /-- `MODE_GENERATION_PARAMS` for non-base modes. -/
  mode_generation_params : List (String × ModeParams)
  /-- `MODE_GENERATION_PARAMS["base"]`. -/
  base_params : ModeParams
  /-- Whether `self.get_actor_system()` is set. -/
  has_actor_system : Bool

/-! ## Events and observable state -/

/-- Data carried by the events the actor emits (the fields the
`BaseEvent.create` calls populate, timestamps omitted). -/
inductive EventData where
  | paramsUsed : String → String → ModeParams → Option Nat → EventData
  | cacheMetric : Nat → Nat → ℚ → EventData
  | jsonFailure : String → String → EventData
  | validationFailed : String → List String → List String → EventData
deriving Repr, DecidableEq

/-- An observability event as handed to `_append_event`. -/
structure Event where
  stream_id : String
  event_type : String
  data : EventData
deriving Repr, DecidableEq

/-- One chat message in the list handed to the provider. -/
structure Message where
  role : String
  content : String
deriving Repr, DecidableEq

/-- Record of one provider invocation (`_call_api`): the message list, the
structured-output flag (`response_format` present iff `use_json`), the mode. -/
structure ApiCall where
  messages : List Message
  use_json : Bool
  mode : String
deriving Repr, DecidableEq

/-- The actor's mutable fields plus the externally observable effect log. -/
structure GenState where
  generation_count : Nat
  total_cache_hits : ℚ
  json_failures : Nat
  mode_success_counts : List (String × Nat)
  mode_failure_counts : List (String × Nat)
  /-- Events successfully appended to the sink, in order. -/
  events : List Event
  /-- Provider calls issued, in order. -/
  api_calls : List ApiCall
deriving Repr, DecidableEq

/-- `GenerationActor.__init__`: counters zero, per-mode metric dicts keyed
by the four known modes. -/
def initState : GenState :=
  { generation_count := 0
    total_cache_hits := 0
    json_failures := 0
    mode_success_counts := [("base", 0), ("talk", 0), ("expert", 0), ("creative", 0)]
    mode_failure_counts := [("base", 0), ("talk", 0), ("expert", 0), ("creative", 0)]
    events := []
    api_calls := [] }

/-- `_append_event` → `EventVersionManager.append_event`: appends to the
sink, or raises when the sink fails; a failed append records nothing. -/
def append_event (env : Env) (st : GenState) (e : Event) :
    Except PyErr Unit × GenState :=
  if env.sink_ok then
    (.ok (), { st with events := st.events ++ [e] })
  else
    (.error (.appendError "append failed"), st)

/-! ## Prompt composition -/

/-- `_build_mode_prompt` (source lines 288-324): base prompt unmodified for
the base mode, unknown modes, empty modifiers and `TODO` placeholders;
otherwise base + modifier, plus the schema-instruction block in JSON mode
when one is registered. -/
def build_mode_prompt (env : Env) (base_prompt : String) (mode : String)
    (use_json : Bool) : String :=
  if mode = "base" then base_prompt
  else
    match pyGet env.prompts_table mode with
    | none => base_prompt
    | some entry =>
      let prompt_key := if use_json then "json" else "normal"
      let mode_modifier := (pyGet entry prompt_key).getD ""
      if mode_modifier = "" || containsSub mode_modifier "TODO" then
        base_prompt
      else
        let final_prompt := base_prompt ++ "\n\n" ++ mode_modifier
        if use_json then
          match pyGet env.json_schema_instructions mode with
          | some instr => final_prompt ++ "\n\n" ++ instr
          | none => final_prompt
        else final_prompt

/-- `_format_context` (252-286): optional system prompt (JSON variant
unless `force_normal`), then the user message.  History injection is a
reserved no-op in the source. -/
def format_context (cfg : Config) (env : Env) (text : String)
    (include_prompt : Bool) (force_normal : Bool) (mode : String) :
    List Message :=
  let sys : List Message :=
    if include_prompt then
      let use_json := cfg.use_json_mode && !force_normal
      let base_prompt :=
        if use_json then env.base_json_prompt else env.base_normal_prompt
      let system_prompt := build_mode_prompt env base_prompt mode use_json
      [{ role := "system", content := system_prompt }]
    else []
  sys ++ [{ role := "user", content := text }]

/-! ## Structured extraction and validation -/

/-- `_extract_from_json` (396-439): parse, then require a dict containing
`response`; the optional Pydantic pre-validation is wrapped in
`try/except: pass` and has no effect.  `JSONDecodeError` and the
missing-field `ValueError` are logged and re-raised unchanged. -/
def extract_from_json (env : Env) (response : String) (user_id : String)
    (return_full_dict : Bool) : Except PyErr Json :=
  let _ := user_id   -- used only in the source's log statements
  match env.loads response with
  | none => .error (.jsonDecodeError "Expecting value")
  | some data =>
    match data with
    | .obj fields =>
      match pyGet fields "response" with
      | some v => if return_full_dict then .ok data else .ok v
      | none => .error (.valueError "JSON missing mandatory response field")
    | _ => .error (.valueError "JSON missing mandatory response field")

/-- `'.'.join(error['loc']) + ": " + error['msg']` formatting of one
Pydantic error (472-475). -/
def format_pydantic_error (e : List String × String) : String :=
  String.intercalate "." e.1 ++ ": " ++ e.2

/-- The trailing count-only summary entry appended on truncation
(481, 504). -/
def truncated_summary (n : Nat) : String :=
  "... and " ++ toString n ++ " more errors"

/-- `_validate_structured_response` (441-506): short-circuit when
validation is disabled; otherwise classify the Pydantic outcome and cap
the error list at `max_validation_errors`, appending the summary entry
when it overflows. -/
def validate_structured_response (cfg : Config) (env : Env)
    (response_dict : Json) (mode : String) : Bool × List String :=
  if !cfg.json_validation_enabled then (true, [])
  else
    match env.pydantic response_dict mode with
    | .ok => (true, [])
    | .validationError errs =>
      let errors := errs.map format_pydantic_error
      let max_errors := cfg.max_validation_errors
      if errors.length > max_errors then
        (false, errors.take max_errors ++
          [truncated_summary (errors.length - max_errors)])
      else (false, errors)
    | .valueErrorCaused errs =>
      let errors := errs.map format_pydantic_error
      let max_errors := cfg.max_validation_errors
      if errors.length > max_errors then
        (false, errors.take max_errors ++
          [truncated_summary (errors.length - max_errors)])
      else (false, errors)
    | .valueErrorPlain msg =>
      let errors := [msg]
      let max_errors := cfg.max_validation_errors
      if errors.length > max_errors then
        (false, errors.take max_errors ++
          [truncated_summary (errors.length - max_errors)])
      else (false, errors)

/-! ## Event logging helpers -/

/-- `_log_json_failure` (570-582). -/
def log_json_failure (env : Env) (st : GenState) (user_id : String)
    (error : String) : Except PyErr Unit × GenState :=
  append_event env st
    { stream_id := "user_" ++ user_id
      event_type := "JSONModeFailureEvent"
      data := .jsonFailure user_id error }

/-- `_log_validation_failure` (508-530); `response_fields` is
`list(response_data.keys())`. -/
def log_validation_failure (env : Env) (st : GenState) (user_id : String)
    (errors : List String) (response_data : List (String × Json)) :
    Except PyErr Unit × GenState :=
  append_event env st
    { stream_id := "validation_" ++ user_id
      event_type := "JSONValidationFailedEvent"
      data := .validationFailed user_id errors (response_data.map Prod.fst) }

/-- `_log_cache_metrics` (532-568): the generation counter always
increments; when any tokens were reported, the hit rate is accumulated and
a `CacheHitMetricEvent` is appended (the periodic logger line has no
state or event effect and is omitted). -/
def log_cache_metrics (env : Env) (st : GenState)
    (hit_tokens miss_tokens : Nat) : Except PyErr Unit × GenState :=
  let st := { st with generation_count := st.generation_count + 1 }
  let total_tokens := hit_tokens + miss_tokens
  if total_tokens > 0 then
    let cache_hit_rate : ℚ := (hit_tokens : ℚ) / (total_tokens : ℚ)
    let st := { st with total_cache_hits := st.total_cache_hits + cache_hit_rate }
    append_event env st
      { stream_id := "metrics"
        event_type := "CacheHitMetricEvent"
        data := .cacheMetric hit_tokens miss_tokens cache_hit_rate }
  else (.ok (), st)

/-! ## Provider invocation -/

/-- `_call_api` (326-394): resolve the mode's generation parameters
(fallback to base), issue the streaming call, drain it (the provider
result carries the aggregated text and final cumulative telemetry), then
log cache metrics.  The call runs inside `CircuitBreaker.call`, whose
implementation lives outside the embedded sources; a breaker fast-fail is
one species of `providerError` here. -/
def call_api (env : Env) (st : GenState) (messages : List Message)
    (use_json : Bool) (mode : String) : Except PyErr String × GenState :=
  let _mode_params := (pyGet env.mode_generation_params mode).getD env.base_params
  let idx := st.api_calls.length
  let st := { st with api_calls :=
    st.api_calls ++ [{ messages := messages, use_json := use_json, mode := mode }] }
  match env.provider idx with
  | .err msg => (.error (.providerError msg), st)
  | .ok full_response hit miss =>
    match log_cache_metrics env st hit miss with
    | (.error e, st') => (.error e, st')
    | (.ok _, st') => (.ok full_response, st')

/-! ## Orchestrator -/

/-- `_generate_response` (147-250).  The `try` block composes
phase=structured messages, invokes the provider, and in JSON mode
extracts, optionally validates (updating the per-mode metric dicts),
emits the parameters-used event and returns the extracted `response`
field; the `except json.JSONDecodeError` handler increments the failure
counter, emits the `JSONModeFailureEvent` and either issues the single
fallback call (phase=fallback messages, no structured output) or returns
the original raw text.  In the embedding the handler is placed at the one
point of the `try` block that can raise `JSONDecodeError` (the parse
inside `_extract_from_json`); every other exception — including the
missing-field `ValueError` — propagates. -/
def generate_response (cfg : Config) (env : Env) (st : GenState)
    (text : String) (user_id : String) (include_prompt : Bool)
    (mode : String) : Except PyErr Json × GenState :=
  let messages := format_context cfg env text include_prompt false mode
  let use_json := cfg.use_json_mode
  match call_api env st messages use_json mode with
  | (.error e, st) => (.error e, st)
  | (.ok response, st) =>
    if use_json then
      match extract_from_json env response user_id true with
      | .error (.jsonDecodeError e) =>
        -- `except json.JSONDecodeError` (233-250)
        let st := { st with json_failures := st.json_failures + 1 }
        match log_json_failure env st user_id e with
        | (.error e', st) => (.error e', st)
        | (.ok _, st) =>
          if cfg.json_fallback_enabled && use_json then
            let messages := format_context cfg env text include_prompt true mode
            match call_api env st messages false mode with
            | (.error e', st) => (.error e', st)
            | (.ok response2, st) => (.ok (.str response2), st)
          else
            (.ok (.str response), st)
      | .error e => (.error e, st)
      | .ok full_data =>
        -- validation block (172-183)
        let valStep : Except PyErr Unit × GenState :=
          if cfg.json_validation_log_failures then
            match full_data with
            | .obj fields =>
              let validated := validate_structured_response cfg env full_data mode
              let is_valid := validated.1
              let errors := validated.2
              let logStep :=
                if !is_valid then
                  log_validation_failure env st user_id errors fields
                else (.ok (), st)
              match logStep with
              | (.error e, st) => (.error e, st)
              | (.ok _, st) =>
                if is_valid then
                  match pyIncr st.mode_success_counts mode with
                  | .error e => (.error e, st)
                  | .ok d => (.ok (), { st with mode_success_counts := d })
                else
                  match pyIncr st.mode_failure_counts mode with
                  | .error e => (.error e, st)
                  | .ok d => (.ok (), { st with mode_failure_counts := d })
            | _ => (.ok (), st)
          else (.ok (), st)
        match valStep with
        | (.error e, st) => (.error e, st)
        | (.ok _, st) =>
          -- `full_data['response'] if isinstance(full_data, dict) else str(full_data)` (186)
          match (match full_data with
                 | .obj fields =>
                   match pyGet fields "response" with
                   | some v => Except.ok v
                   | none => Except.error (PyErr.keyError "response")
                 | _ => Except.ok (Json.str (pyStrOfJson full_data))) with
          | .error e => (.error e, st)
          | .ok response_text =>
            -- parameters-used event (189-206)
            if cfg.log_parameters_usage then
              let used_params :=
                (pyGet env.mode_generation_params mode).getD env.base_params
              match (if cfg.log_response_length
                     then (pyLen response_text).map some
                     else .ok none) with
              | .error e => (.error e, st)
              | .ok response_length =>
                match append_event env st
                  { stream_id := "generation_" ++ user_id
                    event_type := "GenerationParametersUsedEvent"
                    data := .paramsUsed user_id mode used_params response_length } with
                | (.error e, st) => (.error e, st)
                | (.ok _, st) => (.ok response_text, st)
            else (.ok response_text, st)
    else
      -- non-JSON branch (210-231)
      if cfg.log_parameters_usage then
        let used_params :=
          (pyGet env.mode_generation_params mode).getD env.base_params
        match append_event env st
          { stream_id := "generation_" ++ user_id
            event_type := "GenerationParametersUsedEvent"
            data := .paramsUsed user_id mode used_params (some response.length) } with
        | (.error e, st) => (.error e, st)
        | (.ok _, st) => (.ok (.str response), st)
      else (.ok (.str response), st)

/-! ## Message handling (`handle_message`, 82-145) -/

/-- Payload of the `GENERATE_RESPONSE` command at its schema (userId,
chatId, text mandatory; includePrompt and mode read with `.get`
defaults). -/
structure GenPayload where
  user_id : String
  chat_id : String
  text : String
  include_prompt : Option Bool
  mode : Option String
deriving Repr, DecidableEq

/-- An inbound actor message: the type tag and the payload. -/
structure ActorMessage where
  message_type : String
  payload : GenPayload
deriving Repr, DecidableEq

/-- Outbound messages the actor sends through the actor system. -/
inductive OutMsg where
  | botResponse : String → String → Json → OutMsg
  | errorMsg : String → String → String → String → OutMsg

/-- Python `str(e)` for the modelled exceptions (`KeyError` renders its
key quoted). -/
def pyErrStr : PyErr → String
  | .jsonDecodeError m => m
  | .valueError m => m
  | .keyError k => k
  | .typeError m => m
  | .appendError m => m
  | .providerError m => m

/-- The slice `response_text[:50]` in the success-path log statement
(108): defined on strings and lists, `TypeError` otherwise. -/
def pySliceHead : Json → Except PyErr Unit
  | .str _ => .ok ()
  | .arr _ => .ok ()
  | _ => .error (.typeError "object is not subscriptable")

/-- `handle_message` (82-145): ignore every message that is not a
`GENERATE_RESPONSE` command; otherwise run the generation and send either
the `BOT_RESPONSE` or the `ERROR` message to the telegram actor,
returning `None` in all cases.  The `@measure_latency` decorator only
times the call and is transparent here.  The result triple is (returned
value, actor state, outbound `(recipient, message)` sends). -/
def handle_message (cfg : Config) (env : Env) (st : GenState)
    (message : ActorMessage) :
    Except PyErr (Option Unit) × GenState × List (String × OutMsg) :=
  if message.message_type ≠ MESSAGE_TYPE_GENERATE_RESPONSE then
    (.ok none, st, [])
  else
    let user_id := message.payload.user_id
    let chat_id := message.payload.chat_id
    let text := message.payload.text
    let include_prompt := message.payload.include_prompt.getD true
    let mode := message.payload.mode.getD "base"
    let errPath := fun (st : GenState) (e : PyErr) =>
      let error_msg := OutMsg.errorMsg user_id chat_id (pyErrStr e) "generation_error"
      ((.ok none : Except PyErr (Option Unit)), st,
        if env.has_actor_system then [("telegram", error_msg)] else [])
    match generate_response cfg env st text user_id include_prompt mode with
    | (.error e, st) => errPath st e
    | (.ok response_text, st) =>
      match pySliceHead response_text with
      | .error e => errPath st e
      | .ok _ =>
        let bot_response := OutMsg.botResponse user_id chat_id response_text
        (.ok none, st,
          if env.has_actor_system then [("telegram", bot_response)] else [])

/-! ## Circuit breaker

`utils/circuit_breaker.py` is outside the embedded sources; only its
construction (`initialize`, lines 59-64) and its use (`_call_api`, line
394) are visible.  The state machine below is modelled from the spec. -/

/-- The breaker's three states. -/
inductive BreakerState where
  | closed : BreakerState
  | opened : BreakerState
  | halfOpen : BreakerState
deriving Repr, DecidableEq

/-- Modelled from the spec: the `CircuitBreaker` state of
`utils/circuit_breaker.py` (not under the embedded sources) — current
state, consecutive-failure counter, failure threshold, recovery timeout
and last-failure timestamp (spec section 3, `CircuitBreakerState`). -/
structure Breaker where
  state : BreakerState
  failure_count : Nat
  failure_threshold : Nat
  recovery_timeout : Nat
  last_failure_time : Option Nat
deriving Repr, DecidableEq

/-- Result of one `call` through the breaker. -/
inductive CallOutcome (α : Type) where
  | ok : α → CallOutcome α
  | opError : String → CallOutcome α
  | breakerOpen : CallOutcome α
deriving Repr, DecidableEq

/-- Modelled from the spec: the half-open trial of
`CircuitBreaker.call` (not under the embedded sources) — trial success
moves to Closed and resets the counter to zero; trial failure moves back
to Open with the timestamp reset and the counter unchanged (spec 4.1). -/
def Breaker.trial {α : Type} (b : Breaker) (now : Nat)
    (opResult : Except String α) : CallOutcome α × Breaker × Nat :=
  match opResult with
  | .ok a => (.ok a, { b with state := .closed, failure_count := 0 }, 1)
  | .error m =>
    (.opError m, { b with state := .opened, last_failure_time := some now }, 1)

/-- Modelled from the spec: `CircuitBreaker.call(operation)` of
`utils/circuit_breaker.py` (not under the embedded sources), spec 4.1.
`opResult` is what the wrapped operation would produce if invoked; the
third component counts how many times the operation was invoked.  While
Open and before `lastFailure + recoveryTimeout` the call fails with
`BreakerOpenError` (outcome `breakerOpen`) without invoking the
operation; at or after the deadline the state moves to HalfOpen and
exactly one trial runs.  In Closed, every exception counts as a failure
(the actor constructs the breaker with `expected_exception=Exception`)
and the threshold-th consecutive failure opens the breaker. -/
def Breaker.call {α : Type} (b : Breaker) (now : Nat)
    (opResult : Except String α) : CallOutcome α × Breaker × Nat :=
  match b.state with
  | .opened =>
    match b.last_failure_time with
    | some t =>
      if now < t + b.recovery_timeout then (.breakerOpen, b, 0)
      else Breaker.trial { b with state := .halfOpen } now opResult
    | none => Breaker.trial { b with state := .halfOpen } now opResult
  | .halfOpen => Breaker.trial b now opResult
  | .closed =>
    match opResult with
    | .ok a => (.ok a, { b with failure_count := 0 }, 1)
    | .error m =>
      let fc := b.failure_count + 1
      if b.failure_threshold ≤ fc then
        (.opError m, { b with
          state := .opened
          failure_count := fc
          last_failure_time := some now }, 1)
      else
        (.opError m, { b with
          failure_count := fc
          last_failure_time := some now }, 1)

/-- The breaker instance the actor constructs in `initialize` (59-64):
`failure_threshold=3`, `recovery_timeout=60`, all API errors counted. -/
def deepseek_breaker : Breaker :=
  { state := .closed
    failure_count := 0
    failure_threshold := 3
    recovery_timeout := 60
    last_failure_time := none }

/-- The pre-truncation error list `_validate_structured_response` builds
from a failing Pydantic outcome (469-475 for `ValidationError`, 487-498
for `ValueError` with and without a `ValidationError` cause), before the
`max_validation_errors` cap is applied. -/
def pydantic_raw_errors : PydanticOutcome → List String
  | .ok => []
  | .validationError errs => errs.map format_pydantic_error
  | .valueErrorCaused errs => errs.map format_pydantic_error
  | .valueErrorPlain msg => [msg]

/-! ## Concrete fixtures for the witness and counterexample theorems -/

/-- A well-formed structured response: a dict with a `response` field. -/
def rawHappy : String := "\x7b\"response\": \"hi\"\x7d"

/-- Well-formed JSON missing the mandatory `response` field. -/
def rawMood : String := "\x7b\"mood\": \"calm\"\x7d"

/-- Another well-formed dict without `response`. -/
def rawFoo : String := "\x7b\"foo\": 1\x7d"

/-- A concrete `json.loads`: parses the three fixture payloads, fails on
everything else (in particular on `"not json"`). -/
def sampleLoads : String → Option Json := fun s =>
  if s = rawHappy then some (.obj [("response", .str "hi")])
  else if s = rawMood then some (.obj [("mood", .str "calm")])
  else if s = rawFoo then some (.obj [("foo", .num 1)])
  else none

def sampleParams : ModeParams := ⟨1, 1, 100, 0, 0⟩

/-- Structured mode, fallback, validation logging and parameter logging
all enabled; error cap 5. -/
def sampleCfg : Config :=
  { use_json_mode := true
    json_fallback_enabled := true
    json_validation_log_failures := true
    json_validation_enabled := true
    log_parameters_usage := true
    log_response_length := true
    max_validation_errors := 5 }

/-- Happy-path environment: first provider call returns the well-formed
structured response with cache telemetry 3 hit / 1 miss tokens. -/
def sampleEnv : Env :=
  { loads := sampleLoads
    pydantic := fun _ _ => .ok
    provider := fun n => if n = 0 then .ok rawHappy 3 1 else .ok "PLAIN" 0 0
    sink_ok := true
    prompts_table := [("talk", [("json", "talk modifier"), ("normal", "talk plain")]),
                      ("creative", [("json", "TODO later")])]
    base_json_prompt := "BASEJ"
    base_normal_prompt := "BASEN"
    json_schema_instructions := [("talk", "SCHEMA")]
    mode_generation_params := []
    base_params := sampleParams
    has_actor_system := true }

/-- First provider response is unparseable, second is the fallback text. -/
def fallbackEnv : Env :=
  { sampleEnv with provider := fun n =>
      if n = 0 then .ok "not json" 0 0 else .ok "FALLBACK" 0 0 }

/-- First provider response is well-formed JSON missing `response`. -/
def missingFieldEnv : Env :=
  { sampleEnv with provider := fun n =>
      if n = 0 then .ok rawMood 0 0 else .ok "FALLBACK" 0 0 }

/-- Happy-path environment whose event sink fails every append. -/
def sinkFailEnv : Env :=
  { sampleEnv with sink_ok := false }

/-- First provider response is a well-formed dict without `response`. -/
def otherDictEnv : Env :=
  { sampleEnv with provider := fun n =>
      if n = 0 then .ok rawFoo 0 0 else .ok "FALLBACK" 0 0 }

/-- Validation-failure environment: Pydantic reports four errors. -/
def pydFailEnv : Env :=
  { sampleEnv with pydantic := fun _ _ =>
      .validationError [(["a"], "m1"), (["b"], "m2"), (["c"], "m3"), (["d"], "m4")] }

/-- Configuration with the validation-error cap lowered to 2. -/
def truncCfg : Config := { sampleCfg with max_validation_errors := 2 }

/-! # Claim theorems -/

/-- Claim C10: for every actor message whose `message_type` is not
`GENERATE_RESPONSE`, `handle_message` returns `None`, sends no outbound
message, emits no events, and leaves the whole actor state — generation
count, cumulative cache-hit accumulator, JSON-failure counter, per-mode
success and failure counters — unchanged. -/
theorem claim_C10_non_generate_message_is_ignored
    (cfg : Config) (env : Env) (st : GenState) (message : ActorMessage)
    (h : message.message_type ≠ MESSAGE_TYPE_GENERATE_RESPONSE) :
    handle_message cfg env st message = (.ok none, st, []) := by
  simp [handle_message, h]

/-- Witness for C10: a concrete `ping` message is ignored. -/
theorem claim_C10_witness :
    handle_message sampleCfg sampleEnv initState
      { message_type := "ping", payload := ⟨"u1", "c1", "hello", none, none⟩ } =
      (.ok none, initState, []) :=
  claim_C10_non_generate_message_is_ignored sampleCfg sampleEnv initState _ (by decide)

/-- Claim C5: for every parsed JSON payload that is a dict containing a
`response` key, `_extract_from_json` returns exactly that field value
unmodified (or the full dict unmodified when `return_full_dict` is true);
for every payload missing that key, including any non-dict JSON value,
extraction fails by raising, regardless of what other fields are
present. -/
theorem claim_C5_extraction_exact
    (env : Env) (response user_id : String) (data : Json)
    (hload : env.loads response = some data) :
    (∀ fields v, data = .obj fields → pyGet fields "response" = some v →
      extract_from_json env response user_id false = .ok v ∧
      extract_from_json env response user_id true = .ok data) ∧
    (∀ fields, data = .obj fields → pyGet fields "response" = none →
      ∀ rfd, extract_from_json env response user_id rfd =
        .error (.valueError "JSON missing mandatory response field")) ∧
    ((∀ fields, data ≠ .obj fields) →
      ∀ rfd, extract_from_json env response user_id rfd =
        .error (.valueError "JSON missing mandatory response field")) := by
  refine ⟨?_, ?_, ?_⟩
  · rintro fields v rfl hv
    constructor <;> simp [extract_from_json, hload, hv]
  · rintro fields rfl hv rfd
    simp [extract_from_json, hload, hv]
  · intro hnd rfd
    cases data with
    | obj fields => exact absurd rfl (hnd fields)
    | null => simp [extract_from_json, hload]
    | bool b => simp [extract_from_json, hload]
    | num n => simp [extract_from_json, hload]
    | str s => simp [extract_from_json, hload]
    | arr xs => simp [extract_from_json, hload]

/-- Witness for C5: extraction of the concrete happy-path payload. -/
theorem claim_C5_witness :
    extract_from_json sampleEnv rawHappy "u1" false = .ok (.str "hi") ∧
    extract_from_json sampleEnv rawHappy "u1" true =
      .ok (.obj [("response", .str "hi")]) :=
  (claim_C5_extraction_exact sampleEnv rawHappy "u1"
      (.obj [("response", .str "hi")]) rfl).1
    [("response", .str "hi")] (.str "hi") rfl rfl

/-- Claim C6: for every mode with no registered modifier for the phase,
an unknown (unregistered) mode, or a modifier containing the `TODO`
placeholder marker, `_build_mode_prompt` returns the unmodified base
prompt for that phase, and no schema-instruction block is appended. -/
theorem claim_C6_base_prompt_fallback
    (env : Env) (base_prompt : String) (mode : String) (use_json : Bool)
    (h : pyGet env.prompts_table mode = none ∨
      ∃ entry, pyGet env.prompts_table mode = some entry ∧
        ((pyGet entry (if use_json then "json" else "normal")).getD "" = "" ∨
         containsSub ((pyGet entry (if use_json then "json" else "normal")).getD "")
           "TODO" = true)) :
    build_mode_prompt env base_prompt mode use_json = base_prompt := by
  by_cases hb : mode = "base"
  · simp [build_mode_prompt, hb]
  · rcases h with h | ⟨entry, he, hm⟩
    · simp [build_mode_prompt, hb, h]
    · rcases hm with hm | hm <;> simp [build_mode_prompt, hb, he, hm]

/-- Witness for C6: an unknown mode, a `TODO`-placeholder modifier, and a
mode with no modifier registered for the phase all yield the base
prompt. -/
theorem claim_C6_witness :
    build_mode_prompt sampleEnv "BASEJ" "poetry" true = "BASEJ" ∧
    build_mode_prompt sampleEnv "BASEJ" "creative" true = "BASEJ" ∧
    build_mode_prompt sampleEnv "BASEN" "creative" false = "BASEN" :=
  ⟨claim_C6_base_prompt_fallback sampleEnv "BASEJ" "poetry" true (Or.inl (by decide)),
   claim_C6_base_prompt_fallback sampleEnv "BASEJ" "creative" true
     (Or.inr ⟨[("json", "TODO later")], by decide, Or.inr (by decide)⟩),
   claim_C6_base_prompt_fallback sampleEnv "BASEN" "creative" false
     (Or.inr ⟨[("json", "TODO later")], by decide, Or.inl (by decide)⟩)⟩

/-- Claim C7: whenever schema validation fails with more errors than
`max_validation_errors`, the error list `_validate_structured_response`
returns consists of the first `max_validation_errors` entries in order
followed by exactly one trailing count-only summary entry; with at most
the cap, the list is returned untruncated. -/
theorem claim_C7_error_truncation
    (cfg : Config) (env : Env) (response_dict : Json) (mode : String)
    (hen : cfg.json_validation_enabled = true)
    (hfail : env.pydantic response_dict mode ≠ .ok) :
    (validate_structured_response cfg env response_dict mode).1 = false ∧
    ((pydantic_raw_errors (env.pydantic response_dict mode)).length >
        cfg.max_validation_errors →
      (validate_structured_response cfg env response_dict mode).2 =
        (pydantic_raw_errors (env.pydantic response_dict mode)).take
            cfg.max_validation_errors ++
          [truncated_summary
            ((pydantic_raw_errors (env.pydantic response_dict mode)).length -
              cfg.max_validation_errors)] ∧
      (validate_structured_response cfg env response_dict mode).2.length =
        cfg.max_validation_errors + 1) ∧
    ((pydantic_raw_errors (env.pydantic response_dict mode)).length ≤
        cfg.max_validation_errors →
      (validate_structured_response cfg env response_dict mode).2 =
        pydantic_raw_errors (env.pydantic response_dict mode)) := by
  cases hp : env.pydantic response_dict mode with
  | ok => exact absurd hp hfail
  | validationError errs =>
    by_cases hgt : cfg.max_validation_errors < errs.length
    · have hmin : min cfg.max_validation_errors errs.length =
          cfg.max_validation_errors := Nat.min_eq_left (le_of_lt hgt)
      refine ⟨?_, fun _ => ⟨?_, ?_⟩,
          fun hle => absurd hgt (not_lt.mpr (by simpa [pydantic_raw_errors] using hle))⟩ <;>
        simp [validate_structured_response, pydantic_raw_errors, hen, hp, hgt, hmin]
    · refine ⟨?_, fun hgt2 => absurd (by simpa [pydantic_raw_errors] using hgt2) hgt, fun _ => ?_⟩ <;>
        simp [validate_structured_response, pydantic_raw_errors, hen, hp, hgt]
  | valueErrorCaused errs =>
    by_cases hgt : cfg.max_validation_errors < errs.length
    · have hmin : min cfg.max_validation_errors errs.length =
          cfg.max_validation_errors := Nat.min_eq_left (le_of_lt hgt)
      refine ⟨?_, fun _ => ⟨?_, ?_⟩,
          fun hle => absurd hgt (not_lt.mpr (by simpa [pydantic_raw_errors] using hle))⟩ <;>
        simp [validate_structured_response, pydantic_raw_errors, hen, hp, hgt, hmin]
    · refine ⟨?_, fun hgt2 => absurd (by simpa [pydantic_raw_errors] using hgt2) hgt, fun _ => ?_⟩ <;>
        simp [validate_structured_response, pydantic_raw_errors, hen, hp, hgt]
  | valueErrorPlain msg =>
    by_cases hgt : cfg.max_validation_errors < 1
    · have h0 : cfg.max_validation_errors = 0 := Nat.lt_one_iff.mp hgt
      refine ⟨?_, fun _ => ⟨?_, ?_⟩,
          fun hle => absurd hgt (not_lt.mpr (by simpa [pydantic_raw_errors] using hle))⟩ <;>
        simp [validate_structured_response, pydantic_raw_errors, truncated_summary,
          hen, hp, h0]
    · have h0 : cfg.max_validation_errors ≠ 0 := by omega
      refine ⟨?_, fun hgt2 => absurd (by simpa [pydantic_raw_errors] using hgt2) hgt, fun _ => ?_⟩ <;>
        simp [validate_structured_response, pydantic_raw_errors, hen, hp, h0]

/-- Witness for C7: four validation errors against a cap of 2 produce the
first two in order plus one summary entry. -/
theorem claim_C7_witness :
    (validate_structured_response truncCfg pydFailEnv (Json.obj []) "base").1 =
      false ∧
    (validate_structured_response truncCfg pydFailEnv (Json.obj []) "base").2 =
      ["a: m1", "b: m2", "... and 2 more errors"] :=
  have h := claim_C7_error_truncation truncCfg pydFailEnv (Json.obj []) "base"
    rfl (by decide)
  ⟨h.1, ((h.2.1 (by decide)).1).trans (by decide)⟩

/-- Claim C8: `_log_cache_metrics` always increments the generation
counter; with zero total tokens it emits no cache-metric event and leaves
the cumulative hit accumulator unchanged; otherwise (with a working sink)
it appends exactly one `CacheHitMetricEvent` whose recorded rate is
`hitTokens/(hitTokens+missTokens)`, also accumulating that rate. -/
theorem claim_C8_cache_metrics
    (env : Env) (st : GenState) (hit miss : Nat) :
    (hit + miss = 0 →
      log_cache_metrics env st hit miss =
        (.ok (), { st with generation_count := st.generation_count + 1 })) ∧
    (0 < hit + miss → env.sink_ok = true →
      log_cache_metrics env st hit miss =
        (.ok (), { st with
          generation_count := st.generation_count + 1
          total_cache_hits :=
            st.total_cache_hits + (hit : ℚ) / ((hit : ℚ) + (miss : ℚ))
          events := st.events ++
            [{ stream_id := "metrics"
               event_type := "CacheHitMetricEvent"
               data := .cacheMetric hit miss
                 ((hit : ℚ) / ((hit : ℚ) + (miss : ℚ))) }] })) := by
  constructor
  · intro h
    simp [log_cache_metrics, h]
  · intro h hs
    simp [log_cache_metrics, append_event, hs, h, Nat.cast_add]

/-- Witness for C8 at zero tokens and at 3 hit / 1 miss tokens. -/
theorem claim_C8_witness :
    log_cache_metrics sampleEnv initState 0 0 =
      (.ok (), { initState with
        generation_count := initState.generation_count + 1 }) ∧
    log_cache_metrics sampleEnv initState 3 1 =
      (.ok (), { initState with
        generation_count := initState.generation_count + 1
        total_cache_hits :=
          initState.total_cache_hits + (3 : ℚ) / ((3 : ℚ) + (1 : ℚ))
        events := initState.events ++
          [{ stream_id := "metrics"
             event_type := "CacheHitMetricEvent"
             data := .cacheMetric 3 1 ((3 : ℚ) / ((3 : ℚ) + (1 : ℚ))) }] }) :=
  ⟨(claim_C8_cache_metrics sampleEnv initState 0 0).1 rfl,
   (claim_C8_cache_metrics sampleEnv initState 3 1).2 (by decide) rfl⟩

/-- Claim C4: for the shared circuit breaker guarding provider calls
(`failure_threshold=3`, `recovery_timeout=60`): after exactly three
consecutive failures the state moves Closed to Open; every call issued
while Open before `lastFailure + recoveryTimeout` fails with
`BreakerOpenError` without invoking the wrapped operation; a call at or
after that deadline moves Open to HalfOpen and executes exactly one
trial; trial success moves to Closed and resets the failure counter to
zero; trial failure moves back to Open.  (The breaker implementation is
outside the embedded sources and is modelled from the spec.) -/
theorem claim_C4_breaker_protocol
    (t1 t2 t3 now : Nat) (m a msg : String) (res : Except String String) :
    (deepseek_breaker.call t1 (Except.error m) =
      ((.opError m : CallOutcome String), ⟨.closed, 1, 3, 60, some t1⟩, 1)) ∧
    ((⟨.closed, 1, 3, 60, some t1⟩ : Breaker).call t2 (Except.error m) =
      ((.opError m : CallOutcome String), ⟨.closed, 2, 3, 60, some t2⟩, 1)) ∧
    ((⟨.closed, 2, 3, 60, some t2⟩ : Breaker).call t3 (Except.error m) =
      ((.opError m : CallOutcome String), ⟨.opened, 3, 3, 60, some t3⟩, 1)) ∧
    (now < t3 + 60 →
      (⟨.opened, 3, 3, 60, some t3⟩ : Breaker).call now res =
        (.breakerOpen, ⟨.opened, 3, 3, 60, some t3⟩, 0)) ∧
    (t3 + 60 ≤ now →
      (⟨.opened, 3, 3, 60, some t3⟩ : Breaker).call now (Except.ok a) =
        ((.ok a : CallOutcome String), ⟨.closed, 0, 3, 60, some t3⟩, 1)) ∧
    (t3 + 60 ≤ now →
      (⟨.opened, 3, 3, 60, some t3⟩ : Breaker).call now (Except.error msg) =
        ((.opError msg : CallOutcome String), ⟨.opened, 3, 3, 60, some now⟩, 1)) := by
  refine ⟨?_, ?_, ?_, fun h => ?_, fun h => ?_, fun h => ?_⟩
  · simp [deepseek_breaker, Breaker.call]
  · simp [Breaker.call]
  · simp [Breaker.call]
  · simp [Breaker.call, h]
  · simp [Breaker.call, Breaker.trial, not_lt.mpr h]
  · simp [Breaker.call, Breaker.trial, not_lt.mpr h]

/-- Witness for C4: a concrete trial at time 62 closes the breaker and a
concrete call at time 30 fast-fails without invoking the operation. -/
theorem claim_C4_witness :
    ((⟨.opened, 3, 3, 60, some 2⟩ : Breaker).call 62 (Except.ok "pong") =
      ((.ok "pong" : CallOutcome String), ⟨.closed, 0, 3, 60, some 2⟩, 1)) ∧
    ((⟨.opened, 3, 3, 60, some 2⟩ : Breaker).call 30 (Except.ok "pong") =
      (.breakerOpen, ⟨.opened, 3, 3, 60, some 2⟩, 0)) :=
  ⟨(claim_C4_breaker_protocol 0 1 2 62 "e" "pong" "x" (Except.ok "pong")).2.2.2.2.1
      (by decide),
   (claim_C4_breaker_protocol 0 1 2 30 "e" "pong" "x" (Except.ok "pong")).2.2.2.1
      (by decide)⟩

/-- Helper: a successful append with a working sink just records the
event. -/
theorem append_event_ok (env : Env) (st : GenState) (e : Event)
    (hsink : env.sink_ok = true) :
    append_event env st e = (.ok (), { st with events := st.events ++ [e] }) := by
  simp [append_event, hsink]

/-- Helper: a provider success with a working sink makes `_call_api`
return the aggregated text, record exactly one API call, and touch only
the generation counter, the cache-hit accumulator and (possibly) one
cache-metric event. -/
theorem call_api_ok_spec (env : Env) (st : GenState) (messages : List Message)
    (use_json : Bool) (mode : String) (raw : String) (h m : Nat)
    (hp : env.provider st.api_calls.length = .ok raw h m)
    (hsink : env.sink_ok = true) :
    ∃ st', call_api env st messages use_json mode = (.ok raw, st') ∧
      st'.api_calls = st.api_calls ++ [⟨messages, use_json, mode⟩] ∧
      st'.json_failures = st.json_failures ∧
      st'.mode_success_counts = st.mode_success_counts ∧
      st'.mode_failure_counts = st.mode_failure_counts ∧
      (st'.events = st.events ∨
        ∃ ev, ev.event_type = "CacheHitMetricEvent" ∧
          st'.events = st.events ++ [ev]) := by
  by_cases hc : 0 < h + m
  · refine ⟨{ st with
        api_calls := st.api_calls ++ [⟨messages, use_json, mode⟩]
        generation_count := st.generation_count + 1
        total_cache_hits := st.total_cache_hits + (h : ℚ) / ((h : ℚ) + (m : ℚ))
        events := st.events ++
          [{ stream_id := "metrics"
             event_type := "CacheHitMetricEvent"
             data := .cacheMetric h m ((h : ℚ) / ((h : ℚ) + (m : ℚ))) }] },
      ?_, by simp, by simp, by simp, by simp,
      Or.inr ⟨{ stream_id := "metrics"
                event_type := "CacheHitMetricEvent"
                data := .cacheMetric h m ((h : ℚ) / ((h : ℚ) + (m : ℚ))) },
        rfl, by simp⟩⟩
    simp [call_api, log_cache_metrics, append_event, hp, hsink, hc, Nat.cast_add]
  · refine ⟨{ st with
        api_calls := st.api_calls ++ [⟨messages, use_json, mode⟩]
        generation_count := st.generation_count + 1 },
      ?_, by simp, by simp, by simp, by simp, Or.inl (by simp)⟩
    simp [call_api, log_cache_metrics, hp, hc]

/-- Claim C3: when structured mode and fallback are both enabled and the
first provider response is not parseable as JSON, exactly one fallback
retry is issued using phase=fallback messages (composed with
`force_normal`, without the JSON response format), exactly one
`JSONModeFailureEvent` is emitted, and the fallback call raw text is
returned without any second parse attempt (the result is the raw string
whatever `json.loads` would make of it). -/
theorem claim_C3_single_fallback_retry
    (cfg : Config) (env : Env) (st : GenState)
    (text user_id : String) (include_prompt : Bool) (mode : String)
    (raw raw2 : String) (h0 m0 h1 m1 : Nat)
    (hjson : cfg.use_json_mode = true)
    (hfb : cfg.json_fallback_enabled = true)
    (hsink : env.sink_ok = true)
    (hload : env.loads raw = none)
    (hp0 : env.provider st.api_calls.length = .ok raw h0 m0)
    (hp1 : env.provider (st.api_calls.length + 1) = .ok raw2 h1 m1) :
    (generate_response cfg env st text user_id include_prompt mode).1 =
      .ok (.str raw2) ∧
    (generate_response cfg env st text user_id include_prompt mode).2.api_calls =
      st.api_calls ++
        [⟨format_context cfg env text include_prompt false mode, true, mode⟩,
         ⟨format_context cfg env text include_prompt true mode, false, mode⟩] ∧
    (generate_response cfg env st text user_id include_prompt mode).2.json_failures =
      st.json_failures + 1 ∧
    ((generate_response cfg env st text user_id include_prompt mode).2.events.filter
        (fun e => e.event_type == "JSONModeFailureEvent")).length =
      (st.events.filter (fun e => e.event_type == "JSONModeFailureEvent")).length
        + 1 := by
  obtain ⟨st1, hc1, ha1, hj1, _, _, he1⟩ :=
    call_api_ok_spec env st (format_context cfg env text include_prompt false mode)
      true mode raw h0 m0 hp0 hsink
  have hp1' : env.provider
      ({ st1 with json_failures := st1.json_failures + 1
                  events := st1.events ++
                    [{ stream_id := "user_" ++ user_id
                       event_type := "JSONModeFailureEvent"
                       data := .jsonFailure user_id "Expecting value" }] } :
        GenState).api_calls.length = .ok raw2 h1 m1 := by
    simpa [ha1] using hp1
  obtain ⟨st2, hc2, ha2, hj2, _, _, he2⟩ :=
    call_api_ok_spec env _ (format_context cfg env text include_prompt true mode)
      false mode raw2 h1 m1 hp1' hsink
  have hgen : generate_response cfg env st text user_id include_prompt mode =
      (.ok (.str raw2), st2) := by
    simp only [generate_response, hjson, if_true]
    rw [hc1]
    simp only [extract_from_json, hload]
    rw [log_json_failure, append_event_ok env _ _ hsink]
    simp only [hfb, Bool.and_self, if_true]
    rw [hc2]
  refine ⟨by rw [hgen], ?_, ?_, ?_⟩
  · rw [hgen]
    simp [ha2, ha1]
  · rw [hgen]
    simp [hj2, hj1]
  · rw [hgen]
    rcases he2 with he2 | ⟨ev2, hev2, he2⟩
    · rcases he1 with he1 | ⟨ev1, hev1, he1⟩
      · simp [he2, he1, List.filter_append]
      · simp [he2, he1, hev1, List.filter_append]
    · rcases he1 with he1 | ⟨ev1, hev1, he1⟩
      · simp [he2, hev2, he1, List.filter_append]
      · simp [he2, hev2, he1, hev1, List.filter_append]

/-- Witness for C3: the concrete `not json` first response with fallback
enabled returns the fallback text after exactly two provider calls and
one failure event. -/
theorem claim_C3_witness :
    (generate_response sampleCfg fallbackEnv initState "hello" "u1" true "base").1 =
      .ok (.str "FALLBACK") ∧
    (generate_response sampleCfg fallbackEnv initState "hello" "u1" true "base").2.api_calls =
      initState.api_calls ++
        [⟨format_context sampleCfg fallbackEnv "hello" true false "base", true, "base"⟩,
         ⟨format_context sampleCfg fallbackEnv "hello" true true "base", false, "base"⟩] ∧
    (generate_response sampleCfg fallbackEnv initState "hello" "u1" true "base").2.json_failures =
      initState.json_failures + 1 ∧
    ((generate_response sampleCfg fallbackEnv initState "hello" "u1" true "base").2.events.filter
        (fun e => e.event_type == "JSONModeFailureEvent")).length =
      (initState.events.filter
        (fun e => e.event_type == "JSONModeFailureEvent")).length + 1 :=
  claim_C3_single_fallback_retry sampleCfg fallbackEnv initState "hello" "u1"
    true "base" "not json" "FALLBACK" 0 0 0 0 rfl rfl rfl rfl rfl rfl

/-- Counterexample to claim C1 as stated: structured mode and fallback
are enabled and the first provider response (`rawMood`) is well-formed
JSON missing the `response` field, yet the JSON-failure counter is not
incremented — the missing-field `ValueError` raised by
`_extract_from_json` is not caught by the `except json.JSONDecodeError`
handler, so no failure event, no fallback call and no raw-text return
happen. -/
theorem claim_C1_counterexample :
    ¬ ((generate_response sampleCfg missingFieldEnv initState "hello" "u1" true
        "base").2.json_failures = initState.json_failures + 1) := by decide

/-- Claim C1 (amended): when structured mode is enabled and the first
provider response is well-formed JSON missing the `response` field,
`_generate_response` raises the missing-field `ValueError` out of the
request: the JSON-failure counter is unchanged, no `JSONModeFailureEvent`
is emitted, and no fallback call is issued regardless of the fallback
flag — only an unparseable response reaches the JSON-failure handling. -/
theorem claim_C1_missing_field_error_propagates
    (cfg : Config) (env : Env) (st : GenState)
    (text user_id : String) (include_prompt : Bool) (mode : String)
    (raw : String) (fields : List (String × Json)) (h0 m0 : Nat)
    (hjson : cfg.use_json_mode = true)
    (hsink : env.sink_ok = true)
    (hload : env.loads raw = some (.obj fields))
    (hmiss : pyGet fields "response" = none)
    (hp0 : env.provider st.api_calls.length = .ok raw h0 m0) :
    (generate_response cfg env st text user_id include_prompt mode).1 =
      .error (.valueError "JSON missing mandatory response field") ∧
    (generate_response cfg env st text user_id include_prompt mode).2.json_failures =
      st.json_failures ∧
    (generate_response cfg env st text user_id include_prompt mode).2.api_calls =
      st.api_calls ++
        [⟨format_context cfg env text include_prompt false mode, true, mode⟩] ∧
    ((generate_response cfg env st text user_id include_prompt mode).2.events.filter
        (fun e => e.event_type == "JSONModeFailureEvent")).length =
      (st.events.filter (fun e => e.event_type == "JSONModeFailureEvent")).length := by
  obtain ⟨st1, hc1, ha1, hj1, _, _, he1⟩ :=
    call_api_ok_spec env st (format_context cfg env text include_prompt false mode)
      true mode raw h0 m0 hp0 hsink
  have hgen : generate_response cfg env st text user_id include_prompt mode =
      (.error (.valueError "JSON missing mandatory response field"), st1) := by
    simp only [generate_response, hjson, if_true]
    rw [hc1]
    simp only [extract_from_json, hload, hmiss]
  refine ⟨by rw [hgen], by rw [hgen]; exact hj1, by rw [hgen]; simp [ha1], ?_⟩
  rw [hgen]
  rcases he1 with he1 | ⟨ev1, hev1, he1⟩
  · rw [he1]
  · simp [he1, hev1, List.filter_append]

/-- Witness for the amended C1 at the concrete missing-field response. -/
theorem claim_C1_witness :
    (generate_response sampleCfg missingFieldEnv initState "hello" "u1" true
        "base").1 =
      .error (.valueError "JSON missing mandatory response field") ∧
    (generate_response sampleCfg missingFieldEnv initState "hello" "u1" true
        "base").2.json_failures = initState.json_failures ∧
    (generate_response sampleCfg missingFieldEnv initState "hello" "u1" true
        "base").2.api_calls =
      initState.api_calls ++
        [⟨format_context sampleCfg missingFieldEnv "hello" true false "base",
          true, "base"⟩] ∧
    ((generate_response sampleCfg missingFieldEnv initState "hello" "u1" true
        "base").2.events.filter
        (fun e => e.event_type == "JSONModeFailureEvent")).length =
      (initState.events.filter
        (fun e => e.event_type == "JSONModeFailureEvent")).length :=
  claim_C1_missing_field_error_propagates sampleCfg missingFieldEnv initState
    "hello" "u1" true "base" rawMood [("mood", .str "calm")] 0 0
    rfl rfl rfl rfl rfl

/-- Counterexample to claim C2 as stated: with the well-formed provider
response but a failing event sink, the generation request itself fails
with the append error — the telemetry failure reaches the primary
response path and the caller does not receive the generated text. -/
theorem claim_C2_counterexample :
    (generate_response sampleCfg sinkFailEnv initState "hello" "u1" true
        "base").1 = .error (.appendError "append failed") := by rfl

/-- Claim C2 (amended): a failure raised by the event sink's append
operation propagates out of `_generate_response` and fails the
generation request; `handle_message` then sends an `ERROR` message to the
telegram actor instead of the generated text. -/
theorem claim_C2_append_failure_fails_generation
    (cfg : Config) (env : Env) (st : GenState)
    (text user_id chat_id : String) (include_prompt : Bool) (mode : String)
    (raw : String) (h0 m0 : Nat)
    (hsink : env.sink_ok = false)
    (hsys : env.has_actor_system = true)
    (hp0 : env.provider st.api_calls.length = .ok raw h0 m0)
    (htok : 0 < h0 + m0) :
    (generate_response cfg env st text user_id include_prompt mode).1 =
      .error (.appendError "append failed") ∧
    (handle_message cfg env st
        { message_type := MESSAGE_TYPE_GENERATE_RESPONSE
          payload := ⟨user_id, chat_id, text, some include_prompt, some mode⟩ }).2.2 =
      [("telegram",
        OutMsg.errorMsg user_id chat_id "append failed" "generation_error")] := by
  have hcall : ∀ (msgs : List Message) (uj : Bool),
      call_api env st msgs uj mode =
        (.error (.appendError "append failed"),
         { st with
            api_calls := st.api_calls ++ [⟨msgs, uj, mode⟩]
            generation_count := st.generation_count + 1
            total_cache_hits :=
              st.total_cache_hits + (h0 : ℚ) / ((h0 : ℚ) + (m0 : ℚ)) }) := by
    intro msgs uj
    simp [call_api, log_cache_metrics, append_event, hp0, hsink, htok, Nat.cast_add]
  have hg : generate_response cfg env st text user_id include_prompt mode =
      (.error (.appendError "append failed"),
       { st with
          api_calls := st.api_calls ++
            [⟨format_context cfg env text include_prompt false mode,
              cfg.use_json_mode, mode⟩]
          generation_count := st.generation_count + 1
          total_cache_hits :=
            st.total_cache_hits + (h0 : ℚ) / ((h0 : ℚ) + (m0 : ℚ)) }) := by
    simp only [generate_response]
    rw [hcall]
  refine ⟨by rw [hg], ?_⟩
  simp [handle_message, hg, hsys, pyErrStr]

/-- Witness for the amended C2 at the concrete failing-sink run. -/
theorem claim_C2_witness :
    (generate_response sampleCfg sinkFailEnv initState "hello" "u1" true
        "base").1 = .error (.appendError "append failed") ∧
    (handle_message sampleCfg sinkFailEnv initState
        { message_type := MESSAGE_TYPE_GENERATE_RESPONSE
          payload := ⟨"u1", "c1", "hello", some true, some "base"⟩ }).2.2 =
      [("telegram",
        OutMsg.errorMsg "u1" "c1" "append failed" "generation_error")] :=
  claim_C2_append_failure_fails_generation sampleCfg sinkFailEnv initState
    "hello" "u1" "c1" true "base" rawHappy 3 1 rfl rfl rfl (by decide)

/-- Counterexample to claim C9 as stated: mode `poetry` is outside the
four registered modes, structured mode and validation logging are
enabled, and the provider response `rawFoo` parses as a dict — yet the
failure is the missing-field `ValueError` from extraction, not a
`KeyError` from the per-mode metric update, which is never reached. -/
theorem claim_C9_counterexample :
    (generate_response sampleCfg otherDictEnv initState "hello" "u1" true
        "poetry").1 =
      .error (.valueError "JSON missing mandatory response field") := by rfl

/-- Claim C9 (amended): for every mode outside the four keys of the
per-mode metric dicts, when structured mode and validation logging are
enabled and the provider response parses as a dict containing `response`,
the per-mode metric update raises `KeyError(mode)` and the generation
request fails with that error instead of resolving the unknown mode to
the base entry. -/
theorem claim_C9_unknown_mode_keyerror
    (cfg : Config) (env : Env) (st : GenState)
    (text user_id : String) (include_prompt : Bool) (mode : String)
    (raw : String) (fields : List (String × Json)) (v : Json) (h0 m0 : Nat)
    (hjson : cfg.use_json_mode = true)
    (hlog : cfg.json_validation_log_failures = true)
    (hsink : env.sink_ok = true)
    (hload : env.loads raw = some (.obj fields))
    (hresp : pyGet fields "response" = some v)
    (hp0 : env.provider st.api_calls.length = .ok raw h0 m0)
    (hsc : pyGet st.mode_success_counts mode = none)
    (hfc : pyGet st.mode_failure_counts mode = none) :
    (generate_response cfg env st text user_id include_prompt mode).1 =
      .error (.keyError mode) := by
  obtain ⟨st1, hc1, ha1, hj1, hs1, hf1, he1⟩ :=
    call_api_ok_spec env st (format_context cfg env text include_prompt false mode)
      true mode raw h0 m0 hp0 hsink
  rcases hval : validate_structured_response cfg env (.obj fields) mode with ⟨vb, verrs⟩
  have hgen : (generate_response cfg env st text user_id include_prompt mode).1 =
      .error (.keyError mode) := by
    simp only [generate_response, hjson, if_true]
    rw [hc1]
    cases vb <;>
      simp [extract_from_json, hload, hresp, hlog, hval, log_validation_failure,
        append_event, hsink, pyIncr, hs1, hf1, hsc, hfc]
  exact hgen

/-- Witness for the amended C9: mode `poetry` with the happy-path
structured response fails with `KeyError` on the metric update. -/
theorem claim_C9_witness :
    (generate_response sampleCfg sampleEnv initState "hello" "u1" true
        "poetry").1 = .error (.keyError "poetry") :=
  claim_C9_unknown_mode_keyerror sampleCfg sampleEnv initState "hello" "u1"
    true "poetry" rawHappy [("response", .str "hi")] (.str "hi") 3 1
    rfl rfl rfl rfl rfl rfl (by decide) (by decide)

end Chimera
